import Mathlib

/-!
Grade aggregation routes (`src/routes/grades_agg.mjs`).

A shallow embedding of the three MongoDB aggregation pipelines of
`src/routes/grades_agg.mjs` together with the Express handlers around them.

Modelling conventions.

* A document of the `grades` collection is a `GradeRecord`; the collection is a
  list of them.  Each pipeline stage is a function from a list of documents to a
  list of documents, and a pipeline is the composition of its stages.
* Numbers are exact rationals (`ℚ`): the literals `0.5`, `0.3`, `0.2` are read as
  `1/2`, `3/10`, `1/5`.  Rounding of IEEE doubles is not modelled.
* The BSON value `null` is `none`; `$avg` of an empty array is `null`, `$multiply`
  with a `null` operand is `null`, `$sum` skips `null` operands, and `$gt` with a
  `null` left operand and a number on the right is `false`.
* `$group` emits one document per distinct key.  MongoDB leaves the order of the
  groups unspecified; here it is the order of `List.dedup` on the keys.
* `$divide` fails on a zero divisor; a failing pipeline is what the handler's
  `catch` turns into a 500 response.
* A handler takes the value of `Number(req.params.id)` as its argument.
-/

namespace GradesAgg

/-! ## Values -/

/-- A JavaScript number, the result of `Number(req.params.id)`. -/
inductive JsNumber where
  | nan
  | posInf
  | negInf
  | fin (q : ℚ)
deriving DecidableEq

/-- JavaScript `isNaN` on a number. -/
def isNaN : JsNumber → Bool
  | .nan => true
  | _ => false

/-- One element of a record's `scores` array. -/
structure ScoreEntry where
  type : String
  score : ℚ
deriving DecidableEq

/-- One document of the `grades` collection. -/
structure GradeRecord where
  learner_id : Int
  class_id : Int
  scores : List ScoreEntry
deriving DecidableEq

/-- Body of an HTTP response: plain text, an `{ error: msg }` object, or a JSON value. -/
inductive Body (α : Type) where
  | text (s : String)
  | error (msg : String)
  | json (a : α)
deriving DecidableEq

/-- An HTTP response: `res.status(status).send(body)`. -/
structure Response (α : Type) where
  status : Nat
  body : Body α
deriving DecidableEq

/-! ## Aggregation operators -/

/-- Query equality `{ field: n }` of an integer-valued field against a number. -/
def matchesNumber (field : Int) (n : JsNumber) : Bool :=
  match n with
  | .fin q => decide ((field : ℚ) = q)
  | _ => false

/-- A document after `$unwind: { path: "$scores" }`: `scores` is a single entry. -/
structure UnwoundGrade where
  learner_id : Int
  class_id : Int
  scores : ScoreEntry
deriving DecidableEq

/-- Stage `$unwind: { path: "$scores" }`: one output document per array element;
a document whose array is empty produces no output. -/
def unwind (docs : List GradeRecord) : List UnwoundGrade :=
  docs.flatMap fun d => d.scores.map fun s => ⟨d.learner_id, d.class_id, s⟩

/-- Accumulator `$push: { $cond: { if: { $eq: ["$scores.type", ty] },
then: "$scores.score", else: "$$REMOVE" } }` over the documents of one group. -/
def pushCond (ty : String) (docs : List UnwoundGrade) : List ℚ :=
  docs.filterMap fun d => if d.scores.type = ty then some d.scores.score else none

/-- Output document of the `$group` stage with the three `$push` accumulators. -/
structure CategoryGroup where
  _id : Int
  quiz : List ℚ
  exam : List ℚ
  homework : List ℚ
deriving DecidableEq

/-- Stage `$group: { _id: key, quiz: ..., exam: ..., homework: ... }`. -/
def groupScores (key : UnwoundGrade → Int) (docs : List UnwoundGrade) : List CategoryGroup :=
  (docs.map key).dedup.map fun k =>
    let members := docs.filter fun d => decide (key d = k)
    ⟨k, pushCond "quiz" members, pushCond "exam" members, pushCond "homework" members⟩

/-- Expression `$avg` over an array of numbers: `null` when the array is empty. -/
def avgExpr (xs : List ℚ) : Option ℚ :=
  if xs.length = 0 then none else some (xs.sum / (xs.length : ℚ))

/-- Expression `$multiply: [a, w]` with a literal `w`: `null` when `a` is `null`. -/
def multiplyExpr (a : Option ℚ) (w : ℚ) : Option ℚ :=
  a.map fun x => x * w

/-- Expression `$sum: [...]` over a list of operands: `null` operands are skipped. -/
def sumExpr (xs : List (Option ℚ)) : ℚ :=
  (xs.filterMap id).sum

/-- The `avg` field of the `$project` stage shared by `/grades/stats` and
`/learner/:id/avg-class`. -/
def weightedAvg (g : CategoryGroup) : ℚ :=
  sumExpr [multiplyExpr (avgExpr g.exam) (1 / 2),
           multiplyExpr (avgExpr g.quiz) (3 / 10),
           multiplyExpr (avgExpr g.homework) (1 / 5)]

/-! ## `GET /grades/stats` -/

/-- Output of `$project: { _id: 0, learner_id: "$_id", avg: ... }`. -/
structure LearnerAverage where
  learner_id : Int
  avg : ℚ
deriving DecidableEq

/-- Output of `$group: { _id: null, learnersAbove70: { $sum: 1 } }`. -/
structure PassRateCount where
  learnersAbove70 : Nat
deriving DecidableEq

/-- Stages 1 and 2 of `/grades/stats`: unwind, group by `learner_id`, project `avg`. -/
def gradesStatsProjected (collection : List GradeRecord) : List LearnerAverage :=
  (groupScores (fun d => d.learner_id) (unwind collection)).map fun g => ⟨g._id, weightedAvg g⟩

/-- Stage `$group: { _id: null, learnersAbove70: { $sum: 1 } }`: a single group
holding all input documents, and no group at all when there is no input. -/
def groupCount (docs : List LearnerAverage) : List PassRateCount :=
  match docs with
  | [] => []
  | _ :: _ => [⟨(docs.map fun _ => 1).sum⟩]

/-- The whole aggregation pipeline of `/grades/stats`. -/
def gradesStatsPipeline (collection : List GradeRecord) : List PassRateCount :=
  groupCount ((gradesStatsProjected collection).filter fun d => decide (70 < d.avg))

/-- Handler of `GET /grades/stats`. -/
def getGradesStats (collection : List GradeRecord) : Response (List PassRateCount) :=
  let result := gradesStatsPipeline collection
  ⟨200, .json result⟩

/-! ## `GET /learner/:id/avg-class` -/

/-- Output of `$project: { _id: 0, class_id: "$_id", avg: ... }`. -/
structure ClassAverage where
  class_id : Int
  avg : ℚ
deriving DecidableEq

/-- The aggregation pipeline of `/learner/:id/avg-class`; `id` is
`Number(req.params.id)`. -/
def learnerAvgClassPipeline (collection : List GradeRecord) (id : JsNumber) :
    List ClassAverage :=
  let matched := collection.filter fun d => matchesNumber d.learner_id id
  (groupScores (fun d => d.class_id) (unwind matched)).map fun g => ⟨g._id, weightedAvg g⟩

/-- JavaScript truthiness of an array value: every array, the empty one
included, is truthy. -/
def arrayTruthy {α : Type} (_ : List α) : Bool := true

/-- Handler of `GET /learner/:id/avg-class`. -/
def getLearnerAvgClass (collection : List GradeRecord) (id : JsNumber) :
    Response (List ClassAverage) :=
  let result := learnerAvgClassPipeline collection id
  if !(arrayTruthy result) then ⟨404, .text "Not found"⟩ else ⟨200, .json result⟩

/-! ## `GET /stats/:id` -/

/-- Output of `$project: { learner_id: 1, class_id: 1, weightedAverage: ... }`. -/
structure ProjectedGrade where
  learner_id : Int
  class_id : Int
  weightedAverage : Option ℚ
deriving DecidableEq

/-- Output of `$group: { _id: null, totalLearners: ..., above70Count: ... }`. -/
structure GroupedStats where
  totalLearners : Nat
  above70Count : Nat
deriving DecidableEq

/-- The document sent by `/stats/:id`. -/
structure ClassStats where
  totalLearners : Nat
  above70Count : Nat
  above70Percentage : ℚ
deriving DecidableEq

/-- Stage `$project` with `weightedAverage: { $avg: "$scores.score" }`. -/
def projectWeightedAverage (docs : List GradeRecord) : List ProjectedGrade :=
  docs.map fun d => ⟨d.learner_id, d.class_id, avgExpr (d.scores.map fun s => s.score)⟩

/-- Expression `$gt: [a, b]` with a literal number `b`: `null` sorts below every number. -/
def gtExpr (a : Option ℚ) (b : ℚ) : Bool :=
  match a with
  | none => false
  | some x => decide (b < x)

/-- Stage `$group: { _id: null, totalLearners: { $sum: 1 },
above70Count: { $sum: { $cond: [{ $gt: ["$weightedAverage", 70] }, 1, 0] } } }`. -/
def groupStats (docs : List ProjectedGrade) : List GroupedStats :=
  match docs with
  | [] => []
  | _ :: _ =>
    [⟨(docs.map fun _ => 1).sum,
      (docs.map fun d => if gtExpr d.weightedAverage 70 then 1 else 0).sum⟩]

/-- Expression `$divide: [a, b]`: the aggregation fails when `b` is zero. -/
def divideExpr (a b : ℚ) : Except String ℚ :=
  if b = 0 then .error "cannot divide by zero" else .ok (a / b)

/-- Final `$project` stage of `/stats/:id` on one document. -/
def projectPercentage (g : GroupedStats) : Except String ClassStats :=
  match divideExpr (g.above70Count : ℚ) (g.totalLearners : ℚ) with
  | .error e => .error e
  | .ok r => .ok ⟨g.totalLearners, g.above70Count, r * 100⟩

/-- Final `$project` stage of `/stats/:id`: every document is projected in turn,
and the stage fails as soon as one projection fails. -/
def projectPercentageStage : List GroupedStats → Except String (List ClassStats)
  | [] => .ok []
  | g :: gs =>
    match projectPercentage g with
    | .error e => .error e
    | .ok s =>
      match projectPercentageStage gs with
      | .error e => .error e
      | .ok ss => .ok (s :: ss)

/-- The aggregation pipeline of `/stats/:id`. -/
def statsPipeline (collection : List GradeRecord) (classId : JsNumber) :
    Except String (List ClassStats) :=
  let matched := collection.filter fun d => matchesNumber d.class_id classId
  projectPercentageStage (groupStats (projectWeightedAverage matched))

/-- Handler of `GET /stats/:id`; `classId` is `Number(req.params.id)`. -/
def getStats (collection : List GradeRecord) (classId : JsNumber) :
    Response ClassStats :=
  if isNaN classId then ⟨400, .error "Invalid class ID format"⟩
  else
    match statsPipeline collection classId with
    | .error _ => ⟨500, .error "Internal Server Error"⟩
    | .ok stats =>
      match stats with
      | [] => ⟨404, .error "No data found for this class"⟩
      | s :: _ => ⟨200, .json s⟩

/-! ## Reference definitions, following the wording of the specification -/

/-- Score Classifier of the specification: the `score` values of the entries whose
`type` is `ty`, in order and with multiplicity. -/
def scoresOfType (ty : String) (scores : List ScoreEntry) : List ℚ :=
  (scores.filter fun s => decide (s.type = ty)).map fun s => s.score

/-- Mean of a collection under the zero-contribution policy: an empty collection
contributes zero. -/
def meanOrZero (xs : List ℚ) : ℚ :=
  if xs = [] then 0 else xs.sum / (xs.length : ℚ)

/-- Combined score of the specification:
`0.5 * mean(exam) + 0.3 * mean(quiz) + 0.2 * mean(homework)`. -/
def combined (scores : List ScoreEntry) : ℚ :=
  1 / 2 * meanOrZero (scoresOfType "exam" scores)
    + 3 / 10 * meanOrZero (scoresOfType "quiz" scores)
    + 1 / 5 * meanOrZero (scoresOfType "homework" scores)

/-- Simple mean of all `scores[].score` values of one record, whatever their type;
undefined (`none`) for a record without entries. -/
def simpleMean (r : GradeRecord) : Option ℚ :=
  if r.scores = [] then none
  else some ((r.scores.map fun s => s.score).sum / (r.scores.length : ℚ))

/-- All score entries of the records of learner `l`, pooled together. -/
def pooledScores (records : List GradeRecord) (l : Int) : List ScoreEntry :=
  (records.filter fun r => decide (r.learner_id = l)).flatMap fun r => r.scores

/-- All score entries of the records of class `c`, pooled together. -/
def classScores (records : List GradeRecord) (c : Int) : List ScoreEntry :=
  (records.filter fun r => decide (r.class_id = c)).flatMap fun r => r.scores

/-- Number of distinct `learner_id` values whose pooled combined score is
strictly greater than 70. -/
def learnersAbove (records : List GradeRecord) : Nat :=
  ((records.map fun r => r.learner_id).dedup.filter
    fun l => decide (70 < combined (pooledScores records l))).length

/-- Number of records whose own combined score is strictly greater than 70. -/
def recordsAbove (records : List GradeRecord) : Nat :=
  (records.filter fun r => decide (70 < combined r.scores)).length

/-- Whether the simple mean of a record's scores is defined and strictly
greater than 70. -/
def meanAbove70 (r : GradeRecord) : Bool :=
  match simpleMean r with
  | some m => decide (70 < m)
  | none => false

/-! ## Auxiliary lemmas -/

theorem pushCond_eq_scoresOfType (ty : String) (docs : List UnwoundGrade) :
    pushCond ty docs = scoresOfType ty (docs.map fun d => d.scores) := by
  induction docs with
  | nil => rfl
  | cons d ds ih =>
    unfold pushCond scoresOfType at *
    by_cases h : d.scores.type = ty
    · simp [List.filterMap_cons, h, ih]
    · simp [List.filterMap_cons, h, ih]

theorem sumExpr_weighted (a b c : List ℚ) (u v w : ℚ) :
    sumExpr [multiplyExpr (avgExpr a) u, multiplyExpr (avgExpr b) v,
      multiplyExpr (avgExpr c) w]
      = u * meanOrZero a + v * meanOrZero b + w * meanOrZero c := by
  unfold sumExpr multiplyExpr avgExpr meanOrZero
  by_cases ha : a = [] <;> by_cases hb : b = [] <;> by_cases hc : c = [] <;>
    simp [ha, hb, hc, List.length_eq_zero] <;> ring

theorem weightedAvg_eq_combined (k : Int) (members : List UnwoundGrade) :
    weightedAvg ⟨k, pushCond "quiz" members, pushCond "exam" members,
      pushCond "homework" members⟩ = combined (members.map fun d => d.scores) := by
  unfold weightedAvg combined
  simp only [sumExpr_weighted, pushCond_eq_scoresOfType]

theorem unwind_cons (r : GradeRecord) (rs : List GradeRecord) :
    unwind (r :: rs)
      = (r.scores.map fun s => (⟨r.learner_id, r.class_id, s⟩ : UnwoundGrade)) ++ unwind rs := by
  simp [unwind]

theorem map_scores_unwind (rs : List GradeRecord) :
    (unwind rs).map (fun d => d.scores) = rs.flatMap fun r => r.scores := by
  induction rs with
  | nil => rfl
  | cons r rs ih => simp [unwind_cons, ih, Function.comp_def]

theorem filter_class_unwind (k : Int) (rs : List GradeRecord) :
    (unwind rs).filter (fun d => decide (d.class_id = k))
      = unwind (rs.filter fun r => decide (r.class_id = k)) := by
  induction rs with
  | nil => rfl
  | cons r rs ih =>
    by_cases h : r.class_id = k
    · simp [unwind_cons, List.filter_cons, h, ih, List.filter_map, Function.comp_def]
    · simp [unwind_cons, List.filter_cons, h, ih, List.filter_map, Function.comp_def]

theorem filter_learner_unwind (k : Int) (rs : List GradeRecord) :
    (unwind rs).filter (fun d => decide (d.learner_id = k))
      = unwind (rs.filter fun r => decide (r.learner_id = k)) := by
  induction rs with
  | nil => rfl
  | cons r rs ih =>
    by_cases h : r.learner_id = k
    · simp [unwind_cons, List.filter_cons, h, ih, List.filter_map, Function.comp_def]
    · simp [unwind_cons, List.filter_cons, h, ih, List.filter_map, Function.comp_def]

theorem map_learner_unwind (rs : List GradeRecord) :
    (unwind rs).map (fun d => d.learner_id)
      = rs.flatMap fun r => r.scores.map fun _ => r.learner_id := by
  induction rs with
  | nil => rfl
  | cons r rs ih => simp [unwind_cons, ih, Function.comp_def]

theorem map_class_unwind (rs : List GradeRecord) :
    (unwind rs).map (fun d => d.class_id)
      = rs.flatMap fun r => r.scores.map fun _ => r.class_id := by
  induction rs with
  | nil => rfl
  | cons r rs ih => simp [unwind_cons, ih, Function.comp_def]

theorem dedup_const_append {β : Type} (c : Int) (xs : List β) (l : List Int)
    (h : xs ≠ []) : (xs.map (fun _ => c) ++ l).dedup = (c :: l).dedup := by
  induction xs with
  | nil => exact absurd rfl h
  | cons x xs ih =>
    cases xs with
    | nil => rfl
    | cons y ys =>
      have hmem : c ∈ (y :: ys).map (fun _ => c) ++ l := by simp
      rw [List.map_cons, List.cons_append, List.dedup_cons_of_mem hmem]
      exact ih (by simp)

theorem dedup_cons_congr (c : Int) (a b : List Int) (h : a.dedup = b.dedup) :
    (c :: a).dedup = (c :: b).dedup := by
  have hm : c ∈ a ↔ c ∈ b := by
    rw [← List.mem_dedup, h, List.mem_dedup]
  by_cases hc : c ∈ a
  · rw [List.dedup_cons_of_mem hc, List.dedup_cons_of_mem (hm.mp hc), h]
  · rw [List.dedup_cons_of_not_mem hc, List.dedup_cons_of_not_mem (fun hb => hc (hm.mpr hb)), h]

/-- The keys of the groups formed after `$unwind` are the keys of the records
that have at least one score entry. -/
theorem dedup_keys_unwind (f : GradeRecord → Int) (rs : List GradeRecord) :
    (rs.flatMap fun r => r.scores.map fun _ => f r).dedup
      = ((rs.filter fun r => decide (r.scores ≠ [])).map f).dedup := by
  induction rs with
  | nil => rfl
  | cons r rs ih =>
    by_cases h : r.scores = []
    · have hf : decide (r.scores ≠ []) = false := by simp [h]
      rw [List.flatMap_cons, List.filter_cons, hf]
      simp only [h, List.map_nil, List.nil_append, Bool.false_eq_true, if_false]
      exact ih
    · have ht : decide (r.scores ≠ []) = true := by simp [h]
      rw [List.flatMap_cons, dedup_const_append (f r) r.scores _ h, List.filter_cons, ht]
      simp only [if_true, List.map_cons]
      exact dedup_cons_congr _ _ _ ih

theorem learnerAvgClassPipeline_eq (collection : List GradeRecord) (id : JsNumber) :
    learnerAvgClassPipeline collection id
      = (((collection.filter fun d => matchesNumber d.learner_id id).filter
            fun r => decide (r.scores ≠ [])).map fun r => r.class_id).dedup.map
          fun c => ⟨c, combined
            (classScores (collection.filter fun d => matchesNumber d.learner_id id) c)⟩ := by
  unfold learnerAvgClassPipeline groupScores classScores
  simp only [List.map_map, map_class_unwind, dedup_keys_unwind]
  apply List.map_congr_left
  intro k _
  simp only [Function.comp_def, weightedAvg_eq_combined, filter_class_unwind, map_scores_unwind]

theorem gradesStatsProjected_eq (collection : List GradeRecord) :
    gradesStatsProjected collection
      = ((collection.filter fun r => decide (r.scores ≠ [])).map
            fun r => r.learner_id).dedup.map
          fun l => ⟨l, combined (pooledScores collection l)⟩ := by
  unfold gradesStatsProjected groupScores pooledScores
  simp only [List.map_map, map_learner_unwind, dedup_keys_unwind]
  apply List.map_congr_left
  intro k _
  simp only [Function.comp_def, weightedAvg_eq_combined, filter_learner_unwind, map_scores_unwind]

theorem scoresOfType_filter (ty : String) (p : ScoreEntry → Bool) (scores : List ScoreEntry)
    (h : ∀ s ∈ scores, s.type = ty → p s = true) :
    scoresOfType ty (scores.filter p) = scoresOfType ty scores := by
  unfold scoresOfType
  rw [List.filter_filter]
  congr 1
  apply List.filter_congr
  intro s hs
  by_cases hty : s.type = ty
  · simp [hty, h s hs hty]
  · simp [hty]

theorem scoresOfType_eq_nil (ty : String) (scores : List ScoreEntry)
    (h : ∀ s ∈ scores, s.type ≠ ty) : scoresOfType ty scores = [] := by
  unfold scoresOfType
  simp only [List.map_eq_nil_iff, List.filter_eq_nil_iff, decide_eq_true_eq]
  exact h

theorem scoresOfType_eq_map (ty : String) (scores : List ScoreEntry)
    (h : ∀ s ∈ scores, s.type = ty) :
    scoresOfType ty scores = scores.map fun s => s.score := by
  unfold scoresOfType
  congr 1
  simp only [List.filter_eq_self, decide_eq_true_eq]
  exact h

theorem single_record_learner (l c : Int) (scores : List ScoreEntry) (h : scores ≠ []) :
    learnerAvgClassPipeline [⟨l, c, scores⟩] (.fin l) = [⟨c, combined scores⟩] := by
  rw [learnerAvgClassPipeline_eq]
  simp [matchesNumber, classScores, h]

theorem single_record_stats (l c : Int) (scores : List ScoreEntry) (h : scores ≠ []) :
    gradesStatsProjected [⟨l, c, scores⟩] = [⟨l, combined scores⟩] := by
  rw [gradesStatsProjected_eq]
  simp [pooledScores, h]

theorem map_class_pipeline (collection : List GradeRecord) (id : JsNumber) :
    (learnerAvgClassPipeline collection id).map (fun d => d.class_id)
      = (((collection.filter fun d => matchesNumber d.learner_id id).filter
            fun r => decide (r.scores ≠ [])).map fun r => r.class_id).dedup := by
  rw [learnerAvgClassPipeline_eq, List.map_map]
  simp [Function.comp_def]

theorem map_learner_projected (collection : List GradeRecord) :
    (gradesStatsProjected collection).map (fun d => d.learner_id)
      = ((collection.filter fun r => decide (r.scores ≠ [])).map
          fun r => r.learner_id).dedup := by
  rw [gradesStatsProjected_eq, List.map_map]
  simp [Function.comp_def]

theorem pipeline_nil_of_no_match (collection : List GradeRecord) (id : JsNumber)
    (h : ∀ r ∈ collection, matchesNumber r.learner_id id = false) :
    learnerAvgClassPipeline collection id = [] := by
  have hf : (collection.filter fun d => matchesNumber d.learner_id id) = [] := by
    rw [List.filter_eq_nil_iff]
    intro r hr
    simp [h r hr]
  unfold learnerAvgClassPipeline
  simp only [hf]
  rfl

theorem combined_nil : combined [] = 0 := by
  simp [combined, scoresOfType, meanOrZero]

theorem groupCount_of_ne_nil (docs : List LearnerAverage) (h : docs ≠ []) :
    groupCount docs = [⟨docs.length⟩] := by
  cases docs with
  | nil => exact absurd rfl h
  | cons d ds => simp [groupCount, Nat.add_comm]

theorem pooledScores_ne_nil (collection : List GradeRecord) (l : Int)
    (h : 70 < combined (pooledScores collection l)) :
    ∃ r ∈ collection, r.scores ≠ [] ∧ r.learner_id = l := by
  by_contra hcon
  have hnil : pooledScores collection l = [] := by
    unfold pooledScores
    rw [List.flatMap_eq_nil_iff]
    intro r hr
    rw [List.mem_filter, decide_eq_true_eq] at hr
    by_contra hs
    exact hcon ⟨r, hr.1, hs, hr.2⟩
  rw [hnil, combined_nil] at h
  norm_num at h

/-- The documents passing `$match: { avg: { $gt: 70 } }` are as many as the
distinct learners whose pooled combined score is above 70. -/
theorem length_filter_projected (collection : List GradeRecord) :
    ((gradesStatsProjected collection).filter fun d => decide (70 < d.avg)).length
      = learnersAbove collection := by
  rw [gradesStatsProjected_eq, List.filter_map, List.length_map]
  unfold learnersAbove
  apply List.Perm.length_eq
  rw [List.perm_ext_iff_of_nodup ((List.nodup_dedup _).filter _) ((List.nodup_dedup _).filter _)]
  intro l
  simp only [List.mem_filter, List.mem_dedup, List.mem_map, Function.comp_apply,
    decide_eq_true_eq]
  constructor
  · rintro ⟨⟨r, ⟨hr, _⟩, hl⟩, hp⟩
    exact ⟨⟨r, hr, hl⟩, hp⟩
  · rintro ⟨_, hp⟩
    obtain ⟨r, hr, hs, hl⟩ := pooledScores_ne_nil collection l hp
    exact ⟨⟨r, ⟨hr, hs⟩, hl⟩, hp⟩

theorem gradesStatsPipeline_of_pos (collection : List GradeRecord)
    (h : 1 ≤ learnersAbove collection) :
    gradesStatsPipeline collection = [⟨learnersAbove collection⟩] := by
  unfold gradesStatsPipeline
  rw [groupCount_of_ne_nil, length_filter_projected]
  intro hnil
  have hlen := length_filter_projected collection
  rw [hnil] at hlen
  simp at hlen
  omega

theorem gradesStatsPipeline_of_zero (collection : List GradeRecord)
    (h : learnersAbove collection = 0) :
    gradesStatsPipeline collection = [] := by
  unfold gradesStatsPipeline
  have hlen := length_filter_projected collection
  rw [h, List.length_eq_zero] at hlen
  rw [hlen]
  rfl

theorem meanOrZero_bounds (xs : List ℚ) (h : ∀ x ∈ xs, 0 ≤ x ∧ x ≤ 100) :
    0 ≤ meanOrZero xs ∧ meanOrZero xs ≤ 100 := by
  unfold meanOrZero
  by_cases hx : xs = []
  · simp [hx]
  · have hlen : (0 : ℚ) < (xs.length : ℚ) := by
      exact_mod_cast List.length_pos.mpr hx
    have hlo : 0 ≤ xs.sum := List.sum_nonneg fun x hxm => (h x hxm).1
    have hhi : xs.sum ≤ xs.length • (100 : ℚ) :=
      List.sum_le_card_nsmul xs 100 fun x hxm => (h x hxm).2
    rw [nsmul_eq_mul] at hhi
    rw [if_neg hx]
    exact ⟨div_nonneg hlo hlen.le, (div_le_iff₀ hlen).mpr (by linarith)⟩

theorem avgExpr_scores (r : GradeRecord) :
    avgExpr (r.scores.map fun s => s.score) = simpleMean r := by
  unfold avgExpr simpleMean
  by_cases h : r.scores = []
  · simp [h]
  · simp [h]

theorem sum_indicator {α : Type} (p : α → Bool) (l : List α) :
    (l.map fun d => if p d then 1 else 0).sum = (l.filter p).length := by
  induction l with
  | nil => rfl
  | cons a l ih =>
    by_cases h : p a
    · simp [List.filter_cons, h, ih, Nat.add_comm]
    · simp [List.filter_cons, h, ih]

theorem sum_ones {α : Type} (l : List α) : (l.map fun _ => 1).sum = l.length := by
  induction l with
  | nil => rfl
  | cons a l ih => simp [ih, Nat.add_comm]

theorem groupStats_of_ne_nil (docs : List ProjectedGrade) (h : docs ≠ []) :
    groupStats docs
      = [⟨docs.length, (docs.filter fun d => gtExpr d.weightedAverage 70).length⟩] := by
  cases docs with
  | nil => exact absurd rfl h
  | cons d ds =>
    unfold groupStats
    simp only [sum_ones, sum_indicator]

theorem filter_projected (rs : List GradeRecord) :
    ((projectWeightedAverage rs).filter fun d => gtExpr d.weightedAverage 70).length
      = (rs.filter meanAbove70).length := by
  unfold projectWeightedAverage
  rw [List.filter_map, List.length_map]
  congr 1
  apply List.filter_congr
  intro r _
  simp only [Function.comp_apply, avgExpr_scores, gtExpr, meanAbove70]
  cases simpleMean r <;> rfl

theorem statsPipeline_of_nil (collection : List GradeRecord) (classId : JsNumber)
    (h : (collection.filter fun d => matchesNumber d.class_id classId) = []) :
    statsPipeline collection classId = .ok [] := by
  unfold statsPipeline
  simp only [h]
  rfl

theorem statsPipeline_of_ne_nil (collection : List GradeRecord) (classId : JsNumber)
    (h : (collection.filter fun d => matchesNumber d.class_id classId) ≠ []) :
    statsPipeline collection classId
      = .ok [⟨(collection.filter fun d => matchesNumber d.class_id classId).length,
          ((collection.filter fun d => matchesNumber d.class_id classId).filter
            meanAbove70).length,
          (((collection.filter fun d => matchesNumber d.class_id classId).filter
            meanAbove70).length : ℚ)
            / ((collection.filter fun d => matchesNumber d.class_id classId).length : ℚ)
            * 100⟩] := by
  unfold statsPipeline
  have hp : projectWeightedAverage
      (collection.filter fun d => matchesNumber d.class_id classId) ≠ [] := by
    unfold projectWeightedAverage
    simpa using h
  have hlen : ((collection.filter fun d => matchesNumber d.class_id classId).length : ℚ)
      ≠ 0 := by
    exact_mod_cast (List.length_pos.mpr h).ne.symm
  simp only [groupStats_of_ne_nil _ hp, filter_projected]
  have hl : (projectWeightedAverage
      (collection.filter fun d => matchesNumber d.class_id classId)).length
        = (collection.filter fun d => matchesNumber d.class_id classId).length := by
    simp [projectWeightedAverage]
  rw [hl]
  simp [projectPercentageStage, projectPercentage, divideExpr, hlen]

theorem filter_matches_class (collection : List GradeRecord) (c : Int) :
    (collection.filter fun d => matchesNumber d.class_id (.fin c))
      = collection.filter fun r => decide (r.class_id = c) := by
  apply List.filter_congr
  intro r _
  simp [matchesNumber]

/-! ## The claims -/

/-- C1. For a scores sequence with at least one entry, the `avg` computed by the
projection of `/learner/:id/avg-class` and of `/grades/stats` is
`0.5 * mean(exam) + 0.3 * mean(quiz) + 0.2 * mean(homework)`, an empty category
contributing zero; entries of any other type change nothing; a group with exam
scores only yields `0.5 * mean(exam)`; and exam = [80, 90], quiz = [70],
homework = [100] yields 83.5. -/
theorem weighted_average_projection (l c : Int) (scores : List ScoreEntry)
    (h : scores ≠ []) :
    learnerAvgClassPipeline [⟨l, c, scores⟩] (.fin l) = [⟨c, combined scores⟩]
    ∧ gradesStatsProjected [⟨l, c, scores⟩] = [⟨l, combined scores⟩]
    ∧ combined scores
        = combined (scores.filter fun s =>
            decide (s.type = "exam" ∨ s.type = "quiz" ∨ s.type = "homework"))
    ∧ ((∀ s ∈ scores, s.type = "exam") →
        combined scores
          = 1 / 2 * ((scores.map fun s => s.score).sum / (scores.length : ℚ)))
    ∧ learnerAvgClassPipeline
        [⟨l, c, [⟨"exam", 80⟩, ⟨"exam", 90⟩, ⟨"quiz", 70⟩, ⟨"homework", 100⟩]⟩] (.fin l)
        = [⟨c, 167 / 2⟩] := by
  refine ⟨single_record_learner l c scores h, single_record_stats l c scores h, ?_, ?_, ?_⟩
  · unfold combined
    rw [scoresOfType_filter "exam", scoresOfType_filter "quiz", scoresOfType_filter "homework"]
    all_goals intro s _ hty; simp [hty]
  · intro hall
    unfold combined
    rw [scoresOfType_eq_map "exam" scores hall,
      scoresOfType_eq_nil "quiz" scores (fun s hs => by rw [hall s hs]; decide),
      scoresOfType_eq_nil "homework" scores (fun s hs => by rw [hall s hs]; decide)]
    simp [meanOrZero, h]
  · rw [single_record_learner l c _ (by simp)]
    simp +decide only [combined, scoresOfType, meanOrZero, List.filter_cons]
    norm_num

/-- Witness for C1: one record holding only the two exam scores 80 and 90. -/
theorem weighted_average_projection_witness :
    learnerAvgClassPipeline [⟨1, 7, [⟨"exam", 80⟩, ⟨"exam", 90⟩]⟩] (.fin (1 : Int))
      = [⟨7, combined [⟨"exam", 80⟩, ⟨"exam", 90⟩]⟩]
    ∧ combined [⟨"exam", 80⟩, ⟨"exam", 90⟩] = 1 / 2 * ((80 + 90) / 2) := by
  have hw := weighted_average_projection 1 7 [⟨"exam", 80⟩, ⟨"exam", 90⟩] (by simp)
  refine ⟨hw.1, ?_⟩
  rw [hw.2.2.2.1 (by simp)]
  norm_num

/-- C5 (as stated, refuted). Learner 1 has a record for class 7 whose `scores`
array is empty; the result of `/learner/1/avg-class` is empty, so class 7 has no
entry although the learner has a record for it. -/
theorem empty_scores_class_missing :
    learnerAvgClassPipeline [⟨1, 7, []⟩] (.fin (1 : Int)) = []
    ∧ ¬ (∀ c : Int,
          (∃ r ∈ [(⟨1, 7, []⟩ : GradeRecord)],
              matchesNumber r.learner_id (.fin (1 : Int)) = true ∧ r.class_id = c) →
          c ∈ (learnerAvgClassPipeline [⟨1, 7, []⟩] (.fin (1 : Int))).map
                fun d => d.class_id) := by
  have hnil : learnerAvgClassPipeline [⟨1, 7, []⟩] (.fin (1 : Int)) = [] := by
    rw [learnerAvgClassPipeline_eq]
    simp [matchesNumber]
  refine ⟨hnil, ?_⟩
  intro hall
  have h7 := hall 7 ⟨⟨1, 7, []⟩, by simp, by simp [matchesNumber], rfl⟩
  rw [hnil] at h7
  simp at h7

/-- C5 (amended). The result of `/learner/:id/avg-class` has no `class_id` twice,
and a `class_id` appears in it exactly when the learner has a record for that
class with at least one score entry. -/
theorem one_entry_per_scored_class (collection : List GradeRecord) (id : JsNumber) :
    ((learnerAvgClassPipeline collection id).map fun d => d.class_id).Nodup
    ∧ ∀ c : Int,
        c ∈ ((learnerAvgClassPipeline collection id).map fun d => d.class_id)
          ↔ ∃ r ∈ collection,
              matchesNumber r.learner_id id = true ∧ r.class_id = c ∧ r.scores ≠ [] := by
  rw [map_class_pipeline]
  refine ⟨List.nodup_dedup _, ?_⟩
  intro c
  simp only [List.mem_dedup, List.mem_map, List.mem_filter, decide_eq_true_eq]
  constructor
  · rintro ⟨r, ⟨⟨hr, hm⟩, hs⟩, hc⟩
    exact ⟨r, hr, hm, hc, hs⟩
  · rintro ⟨r, hr, hm, hc, hs⟩
    exact ⟨r, ⟨⟨hr, hm⟩, hs⟩, hc⟩

/-- C8 (the code at the failing input). When no record matches the learner id the
pipeline yields the empty array, and the handler answers 200 with that empty
array: the test `!result` never fires on an array. -/
theorem unknown_learner_status_200 (collection : List GradeRecord) (id : JsNumber)
    (h : ∀ r ∈ collection, matchesNumber r.learner_id id = false) :
    learnerAvgClassPipeline collection id = []
    ∧ getLearnerAvgClass collection id = ⟨200, .json []⟩ := by
  have hnil := pipeline_nil_of_no_match collection id h
  refine ⟨hnil, ?_⟩
  unfold getLearnerAvgClass
  simp [hnil, arrayTruthy]

/-- Witness for C8: learner 42 is unknown to a collection holding learner 1 only. -/
theorem unknown_learner_status_200_witness :
    getLearnerAvgClass [⟨1, 1, [⟨"exam", 90⟩]⟩] (.fin (42 : Int)) = ⟨200, .json []⟩ :=
  (unknown_learner_status_200 [⟨1, 1, [⟨"exam", 90⟩]⟩] (.fin (42 : Int))
    (by intro r hr; simp at hr; subst hr; simp [matchesNumber])).2

/-- C10 (the code at the failing input). For an id whose `Number()` conversion is
`NaN`, `/stats/:id` answers 400, while `/learner/:id/avg-class` runs its
aggregation and answers 200 with an empty array. -/
theorem nan_id_handling (collection : List GradeRecord) :
    getStats collection .nan = ⟨400, .error "Invalid class ID format"⟩
    ∧ getLearnerAvgClass collection .nan = ⟨200, .json []⟩ := by
  refine ⟨rfl, ?_⟩
  have hnil := pipeline_nil_of_no_match collection .nan (fun _ _ => rfl)
  unfold getLearnerAvgClass
  simp [hnil, arrayTruthy]

/-- C3 (as stated, refuted). Learner 1 has two records, each with its own combined
score 80; counting records gives 2, while `/grades/stats` answers
`learnersAbove70 = 1`. -/
theorem two_records_counted_once :
    recordsAbove [⟨1, 1, [⟨"exam", 100⟩, ⟨"quiz", 100⟩]⟩,
        ⟨1, 2, [⟨"exam", 100⟩, ⟨"quiz", 100⟩]⟩] = 2
    ∧ getGradesStats [⟨1, 1, [⟨"exam", 100⟩, ⟨"quiz", 100⟩]⟩,
        ⟨1, 2, [⟨"exam", 100⟩, ⟨"quiz", 100⟩]⟩] = ⟨200, .json [⟨1⟩]⟩
    ∧ getGradesStats [⟨1, 1, [⟨"exam", 100⟩, ⟨"quiz", 100⟩]⟩,
        ⟨1, 2, [⟨"exam", 100⟩, ⟨"quiz", 100⟩]⟩]
        ≠ ⟨200, .json [⟨recordsAbove [⟨1, 1, [⟨"exam", 100⟩, ⟨"quiz", 100⟩]⟩,
            ⟨1, 2, [⟨"exam", 100⟩, ⟨"quiz", 100⟩]⟩]⟩]⟩ := by
  have hrec : recordsAbove [⟨1, 1, [⟨"exam", 100⟩, ⟨"quiz", 100⟩]⟩,
      ⟨1, 2, [⟨"exam", 100⟩, ⟨"quiz", 100⟩]⟩] = 2 := by
    simp +decide [recordsAbove, combined, scoresOfType, meanOrZero, List.filter_cons]
    norm_num
  have hd : ([1, 1] : List Int).dedup = [1] := by decide
  have hlearn : learnersAbove [⟨1, 1, [⟨"exam", 100⟩, ⟨"quiz", 100⟩]⟩,
      ⟨1, 2, [⟨"exam", 100⟩, ⟨"quiz", 100⟩]⟩] = 1 := by
    simp +decide [learnersAbove, hd, pooledScores, combined, scoresOfType, meanOrZero,
      List.filter_cons]
    norm_num
  have hget : getGradesStats [⟨1, 1, [⟨"exam", 100⟩, ⟨"quiz", 100⟩]⟩,
      ⟨1, 2, [⟨"exam", 100⟩, ⟨"quiz", 100⟩]⟩] = ⟨200, .json [⟨1⟩]⟩ := by
    unfold getGradesStats
    rw [gradesStatsPipeline_of_pos _ (by rw [hlearn]), hlearn]
  refine ⟨hrec, hget, ?_⟩
  rw [hget, hrec]
  decide

/-- C3 (amended). `/grades/stats` computes one combined score per distinct
`learner_id` that has at least one score entry, over the scores of all of that
learner's records pooled together, and returns as `learnersAbove70` the number
of these pooled scores strictly greater than 70 (the answer is the empty array
when that number is zero); a learner with several records contributes a single
pooled score. -/
theorem one_score_per_learner (collection : List GradeRecord) :
    ((gradesStatsProjected collection).map fun d => d.learner_id).Nodup
    ∧ (∀ l : Int, l ∈ ((gradesStatsProjected collection).map fun d => d.learner_id)
        ↔ ∃ r ∈ collection, r.learner_id = l ∧ r.scores ≠ [])
    ∧ (∀ d ∈ gradesStatsProjected collection,
        d.avg = combined (pooledScores collection d.learner_id))
    ∧ getGradesStats collection
        = ⟨200, .json
            (if ((gradesStatsProjected collection).filter
                  fun d => decide (70 < d.avg)).length = 0 then []
             else [⟨((gradesStatsProjected collection).filter
                  fun d => decide (70 < d.avg)).length⟩])⟩
    ∧ ((gradesStatsProjected collection).filter fun d => decide (70 < d.avg)).length
        = learnersAbove collection
    ∧ (∀ r ∈ collection, r.scores ≠ [] →
        (gradesStatsProjected collection).filter
            (fun d => decide (d.learner_id = r.learner_id))
          = [⟨r.learner_id, combined (pooledScores collection r.learner_id)⟩])
    ∧ (∀ (l c₁ c₂ : Int) (s₁ s₂ : List ScoreEntry), s₁ ≠ [] →
        gradesStatsProjected [⟨l, c₁, s₁⟩, ⟨l, c₂, s₂⟩] = [⟨l, combined (s₁ ++ s₂)⟩]) := by
  refine ⟨?_, ?_, ?_, ?_, length_filter_projected collection, ?_, ?_⟩
  · rw [map_learner_projected]
    exact List.nodup_dedup _
  · intro l
    rw [map_learner_projected]
    simp only [List.mem_dedup, List.mem_map, List.mem_filter, decide_eq_true_eq]
    constructor
    · rintro ⟨r, ⟨hr, hs⟩, hl⟩
      exact ⟨r, hr, hl, hs⟩
    · rintro ⟨r, hr, hl, hs⟩
      exact ⟨r, ⟨hr, hs⟩, hl⟩
  · intro d hd
    rw [gradesStatsProjected_eq, List.mem_map] at hd
    obtain ⟨l, _, rfl⟩ := hd
    rfl
  · rw [length_filter_projected]
    unfold getGradesStats
    by_cases h0 : learnersAbove collection = 0
    · rw [gradesStatsPipeline_of_zero collection h0, if_pos h0]
    · rw [gradesStatsPipeline_of_pos collection (Nat.one_le_iff_ne_zero.mpr h0), if_neg h0]
  · intro r hr hs
    have hmem : r.learner_id
        ∈ ((collection.filter fun r => decide (r.scores ≠ [])).map
            fun r => r.learner_id).dedup := by
      rw [List.mem_dedup, List.mem_map]
      exact ⟨r, List.mem_filter.mpr ⟨hr, by simpa using hs⟩, rfl⟩
    have hcount := List.count_eq_one_of_mem (List.nodup_dedup _) hmem
    have hpred : ((fun d : LearnerAverage => decide (d.learner_id = r.learner_id)) ∘
        fun l => (⟨l, combined (pooledScores collection l)⟩ : LearnerAverage))
          = fun l => decide (l = r.learner_id) := rfl
    rw [gradesStatsProjected_eq, List.filter_map, hpred, List.filter_eq, hcount]
    rfl
  · intro l c₁ c₂ s₁ s₂ hs
    rw [gradesStatsProjected_eq]
    by_cases h2 : s₂ = []
    · simp [pooledScores, hs, h2]
    · simp [pooledScores, hs, h2]

/-- Witness for C3: learner 1 has two records, each with combined score 80; the
projection holds the single pooled score of learner 1 and the answer is
`learnersAbove70 = 1`. -/
theorem one_score_per_learner_witness :
    (gradesStatsProjected [⟨1, 1, [⟨"exam", 100⟩, ⟨"quiz", 100⟩]⟩,
        ⟨1, 2, [⟨"exam", 100⟩, ⟨"quiz", 100⟩]⟩]).filter
          (fun d => decide (d.learner_id = 1))
      = [⟨1, combined (pooledScores [⟨1, 1, [⟨"exam", 100⟩, ⟨"quiz", 100⟩]⟩,
          ⟨1, 2, [⟨"exam", 100⟩, ⟨"quiz", 100⟩]⟩] 1)⟩]
    ∧ getGradesStats [⟨1, 1, [⟨"exam", 100⟩, ⟨"quiz", 100⟩]⟩,
        ⟨1, 2, [⟨"exam", 100⟩, ⟨"quiz", 100⟩]⟩] = ⟨200, .json [⟨1⟩]⟩ := by
  have hw := one_score_per_learner [⟨1, 1, [⟨"exam", 100⟩, ⟨"quiz", 100⟩]⟩,
      ⟨1, 2, [⟨"exam", 100⟩, ⟨"quiz", 100⟩]⟩]
  have hd : ([1, 1] : List Int).dedup = [1] := by decide
  have hlearn : learnersAbove [⟨1, 1, [⟨"exam", 100⟩, ⟨"quiz", 100⟩]⟩,
      ⟨1, 2, [⟨"exam", 100⟩, ⟨"quiz", 100⟩]⟩] = 1 := by
    simp +decide [learnersAbove, hd, pooledScores, combined, scoresOfType, meanOrZero,
      List.filter_cons]
    norm_num
  refine ⟨hw.2.2.2.2.2.1 ⟨1, 1, [⟨"exam", 100⟩, ⟨"quiz", 100⟩]⟩ (by simp) (by simp), ?_⟩
  have hget := hw.2.2.2.1
  rw [hw.2.2.2.2.1, hlearn] at hget
  exact hget

/-- C4. When at least one learner qualifies, `/grades/stats` answers 200 with one
document whose `learnersAbove70` is the number of distinct `learner_id` values
whose combined score over their pooled records is strictly greater than 70; a
learner whose pooled combined score is exactly 70 is not among those counted. -/
theorem pass_rate_counts_learners (collection : List GradeRecord)
    (h : 1 ≤ learnersAbove collection) :
    getGradesStats collection = ⟨200, .json [⟨learnersAbove collection⟩]⟩
    ∧ ∀ d ∈ gradesStatsProjected collection, d.avg = 70 →
        d ∉ (gradesStatsProjected collection).filter fun d => decide (70 < d.avg) := by
  constructor
  · unfold getGradesStats
    rw [gradesStatsPipeline_of_pos collection h]
  · intro d _ h70 hmem
    rw [List.mem_filter, decide_eq_true_eq, h70] at hmem
    exact lt_irrefl _ hmem.2

/-- Witness for C4: learner 1 has combined score 80 and learner 2 exactly 70;
the answer counts one learner. -/
theorem pass_rate_counts_learners_witness :
    learnersAbove [⟨1, 1, [⟨"exam", 100⟩, ⟨"quiz", 100⟩]⟩,
        ⟨2, 1, [⟨"exam", 70⟩, ⟨"quiz", 70⟩, ⟨"homework", 70⟩]⟩] = 1
    ∧ getGradesStats [⟨1, 1, [⟨"exam", 100⟩, ⟨"quiz", 100⟩]⟩,
        ⟨2, 1, [⟨"exam", 70⟩, ⟨"quiz", 70⟩, ⟨"homework", 70⟩]⟩] = ⟨200, .json [⟨1⟩]⟩ := by
  have hd : ([1, 2] : List Int).dedup = [1, 2] := by decide
  have hlearn : learnersAbove [⟨1, 1, [⟨"exam", 100⟩, ⟨"quiz", 100⟩]⟩,
      ⟨2, 1, [⟨"exam", 70⟩, ⟨"quiz", 70⟩, ⟨"homework", 70⟩]⟩] = 1 := by
    simp +decide [learnersAbove, hd, pooledScores, combined, scoresOfType, meanOrZero,
      List.filter_cons]
    norm_num
  have hw := (pass_rate_counts_learners [⟨1, 1, [⟨"exam", 100⟩, ⟨"quiz", 100⟩]⟩,
      ⟨2, 1, [⟨"exam", 70⟩, ⟨"quiz", 70⟩, ⟨"homework", 70⟩]⟩] (by rw [hlearn])).1
  rw [hlearn] at hw
  exact ⟨hlearn, hw⟩

/-- C7 (as stated, refuted). On the empty collection `/grades/stats` answers with
an empty array: there is no document carrying `learnersAbove70 = 0`. -/
theorem empty_collection_no_count :
    getGradesStats [] = ⟨200, .json []⟩
    ∧ ¬ ∃ c : PassRateCount,
        (getGradesStats []).body = .json [c] ∧ c.learnersAbove70 = 0 := by
  have h : getGradesStats [] = ⟨200, .json []⟩ := rfl
  refine ⟨h, ?_⟩
  rintro ⟨c, hc, _⟩
  rw [h] at hc
  simp at hc

/-- C7 (amended). When no learner's pooled combined score exceeds 70, in
particular on the empty collection, `/grades/stats` answers 200 with an empty
array. -/
theorem no_qualifier_empty_array (collection : List GradeRecord)
    (h : ∀ l : Int, ¬ 70 < combined (pooledScores collection l)) :
    getGradesStats collection = ⟨200, .json []⟩
    ∧ getGradesStats [] = ⟨200, .json []⟩ := by
  refine ⟨?_, rfl⟩
  unfold getGradesStats
  rw [gradesStatsPipeline_of_zero]
  unfold learnersAbove
  rw [List.length_eq_zero, List.filter_eq_nil_iff]
  intro l _
  simpa using h l

/-- Witness for C7: a collection whose only learner has combined score 50. -/
theorem no_qualifier_empty_array_witness :
    getGradesStats [⟨1, 1, [⟨"exam", 100⟩]⟩] = ⟨200, .json []⟩ :=
  (no_qualifier_empty_array [⟨1, 1, [⟨"exam", 100⟩]⟩] (by
    intro l
    by_cases hl : (1 : Int) = l
    · simp +decide [pooledScores, hl, combined, scoresOfType, meanOrZero, List.filter_cons]
      norm_num
    · simp +decide [pooledScores, hl, combined, scoresOfType, meanOrZero])).1

/-- C9. When every value pushed into the three arrays of a group lies in
[0, 100], the projected `avg` lies in [0, 100], whichever arrays are empty. -/
theorem weighted_average_in_range (g : CategoryGroup)
    (h : ∀ x : ℚ, x ∈ g.exam ∨ x ∈ g.quiz ∨ x ∈ g.homework → 0 ≤ x ∧ x ≤ 100) :
    0 ≤ weightedAvg g ∧ weightedAvg g ≤ 100 := by
  unfold weightedAvg
  rw [sumExpr_weighted]
  have he := meanOrZero_bounds g.exam fun x hx => h x (Or.inl hx)
  have hq := meanOrZero_bounds g.quiz fun x hx => h x (Or.inr (Or.inl hx))
  have hh := meanOrZero_bounds g.homework fun x hx => h x (Or.inr (Or.inr hx))
  constructor <;> linarith [he.1, he.2, hq.1, hq.2, hh.1, hh.2]

/-- Witness for C9: a group with two exam scores and no quiz or homework score. -/
theorem weighted_average_in_range_witness :
    0 ≤ weightedAvg ⟨1, [], [100, 0], []⟩ ∧ weightedAvg ⟨1, [], [100, 0], []⟩ ≤ 100 :=
  weighted_average_in_range ⟨1, [], [100, 0], []⟩ (by
    intro x hx
    simp at hx
    rcases hx with rfl | rfl <;> norm_num)

/-- C2. When at least one record has the requested `class_id`, `/stats/:id`
answers 200 with `totalLearners` the number of matching records, `above70Count`
the number of matching records whose simple mean over all their scores is
strictly greater than 70, and `above70Percentage = 100 * above70Count /
totalLearners`; three matching records with means 60, 75 and 80 give 3, 2 and
200/3. -/
theorem class_summary (collection : List GradeRecord) (c : Int)
    (h : (collection.filter fun r => decide (r.class_id = c)) ≠ []) :
    getStats collection (.fin c)
      = ⟨200, .json
          ⟨(collection.filter fun r => decide (r.class_id = c)).length,
           ((collection.filter fun r => decide (r.class_id = c)).filter meanAbove70).length,
           100 * (((collection.filter fun r => decide (r.class_id = c)).filter
                meanAbove70).length : ℚ)
             / ((collection.filter fun r => decide (r.class_id = c)).length : ℚ)⟩⟩
    ∧ ∀ r₁ r₂ r₃ : GradeRecord,
        (collection.filter fun r => decide (r.class_id = c)) = [r₁, r₂, r₃] →
        simpleMean r₁ = some 60 → simpleMean r₂ = some 75 → simpleMean r₃ = some 80 →
        getStats collection (.fin c) = ⟨200, .json ⟨3, 2, 200 / 3⟩⟩ := by
  have hm : (collection.filter fun d => matchesNumber d.class_id (.fin c)) ≠ [] := by
    rw [filter_matches_class]
    exact h
  have hget : getStats collection (.fin c)
      = ⟨200, .json
          ⟨(collection.filter fun r => decide (r.class_id = c)).length,
           ((collection.filter fun r => decide (r.class_id = c)).filter meanAbove70).length,
           100 * (((collection.filter fun r => decide (r.class_id = c)).filter
                meanAbove70).length : ℚ)
             / ((collection.filter fun r => decide (r.class_id = c)).length : ℚ)⟩⟩ := by
    unfold getStats
    rw [statsPipeline_of_ne_nil collection (.fin c) hm, filter_matches_class]
    simp only [isNaN, Bool.false_eq_true, if_false]
    congr 3
    ring
  refine ⟨hget, ?_⟩
  intro r₁ r₂ r₃ hrs h₁ h₂ h₃
  rw [hget, hrs]
  have hf : ([r₁, r₂, r₃].filter meanAbove70) = [r₂, r₃] := by
    simp +decide [List.filter_cons, meanAbove70, h₁, h₂, h₃]
  rw [hf]
  norm_num

/-- Witness for C2: class 5 has three records with means 60, 75 and 80, and the
collection holds one record of another class. -/
theorem class_summary_witness :
    getStats [⟨1, 5, [⟨"exam", 60⟩]⟩, ⟨2, 5, [⟨"exam", 70⟩, ⟨"quiz", 80⟩]⟩,
        ⟨3, 5, [⟨"homework", 80⟩]⟩, ⟨4, 6, [⟨"exam", 100⟩]⟩] (.fin (5 : Int))
      = ⟨200, .json ⟨3, 2, 200 / 3⟩⟩ :=
  (class_summary [⟨1, 5, [⟨"exam", 60⟩]⟩, ⟨2, 5, [⟨"exam", 70⟩, ⟨"quiz", 80⟩]⟩,
      ⟨3, 5, [⟨"homework", 80⟩]⟩, ⟨4, 6, [⟨"exam", 100⟩]⟩] 5 (by decide)).2
    ⟨1, 5, [⟨"exam", 60⟩]⟩ ⟨2, 5, [⟨"exam", 70⟩, ⟨"quiz", 80⟩]⟩ ⟨3, 5, [⟨"homework", 80⟩]⟩
    (by decide) (by simp [simpleMean]) (by simp [simpleMean]; norm_num)
    (by simp [simpleMean])

/-- C6. With a numeric class id and no matching record, `/stats/:id` answers 404
"No data found for this class"; the pipeline never fails on `$divide`, the
handler never answers 500, and every summary it sends has `totalLearners >= 1`
and carries the quotient `above70Count / totalLearners * 100`. -/
theorem stats_guard_no_division_by_zero (collection : List GradeRecord) (classId : JsNumber) :
    (isNaN classId = false →
      (∀ r ∈ collection, matchesNumber r.class_id classId = false) →
      getStats collection classId = ⟨404, .error "No data found for this class"⟩)
    ∧ (∃ stats, statsPipeline collection classId = .ok stats)
    ∧ (getStats collection classId).status ≠ 500
    ∧ ∀ s : ClassStats, (getStats collection classId).body = .json s →
        1 ≤ s.totalLearners
        ∧ s.above70Percentage = (s.above70Count : ℚ) / (s.totalLearners : ℚ) * 100 := by
  by_cases hm : (collection.filter fun d => matchesNumber d.class_id classId) = []
  · have hp := statsPipeline_of_nil collection classId hm
    refine ⟨?_, ⟨_, hp⟩, ?_, ?_⟩
    · intro hnan _
      unfold getStats
      rw [hp]
      simp [hnan]
    · unfold getStats
      rw [hp]
      by_cases hnan : isNaN classId = true <;> simp [hnan]
    · intro s hs
      unfold getStats at hs
      rw [hp] at hs
      by_cases hnan : isNaN classId = true <;> simp [hnan] at hs
  · have hp := statsPipeline_of_ne_nil collection classId hm
    refine ⟨?_, ⟨_, hp⟩, ?_, ?_⟩
    · intro _ hall
      exfalso
      apply hm
      rw [List.filter_eq_nil_iff]
      intro r hr
      simp [hall r hr]
    · unfold getStats
      rw [hp]
      by_cases hnan : isNaN classId = true <;> simp [hnan]
    · intro s hs
      unfold getStats at hs
      rw [hp] at hs
      by_cases hnan : isNaN classId = true
      · simp [hnan] at hs
      · simp [hnan] at hs
        subst hs
        exact ⟨List.length_pos.mpr hm, rfl⟩

/-- Witness for C6: class 9 has no record in a collection holding class 5 only. -/
theorem stats_guard_no_division_by_zero_witness :
    getStats [⟨1, 5, [⟨"exam", 60⟩]⟩] (.fin (9 : Int))
      = ⟨404, .error "No data found for this class"⟩ :=
  (stats_guard_no_division_by_zero [⟨1, 5, [⟨"exam", 60⟩]⟩] (.fin (9 : Int))).1 rfl
    (by intro r hr; simp at hr; subst hr; simp [matchesNumber])

end GradesAgg
